import Mathlib

/-!
# Verification of the `moveobject` bulk object-transfer pipeline

This file gives a shallow embedding of the `moveobject` tool (Go sources:
`migrate-main.go`, `migrate-state.go`, `delete-main.go`, `delete-state.go`,
and the unnamed move/copy/list files) and proves, or refutes, the frozen
claims about its behaviour.

The repository ships two revisions of the migrate pipeline concatenated in
`migrate-state.go`; definitions carry a `V1` suffix for the first revision
(lines 1-192 of the concatenated file) and `V2` for the second (lines
193-418).  The move, copy and delete pipelines exist in one revision each.

Modelling conventions:
* The remote MinIO service is an oracle (`Remote`): a family of boolean
  functions saying which calls succeed, plus the version/size a `Stat`
  reports.  Every remote invocation performed by a strategy is recorded in
  a trace (`List RemoteCall`), in program order.
* The externally supplied helpers `patternMatch` (key filter) and `convert`
  (key-rewrite policy) are not part of the sources under verification; they
  are carried abstractly in `Config`.
* `logMsg (migrateMsg a b)` intent logging is recorded as `LogMsg.intent a b`;
  debug-only `logDMsg` output is not modelled.
* Channels are modelled as a buffer plus a closed flag; the outcome-router
  goroutine (a Go `select` over the failure and success channels) is a step
  function driven by an explicit schedule of branch choices, with Go's
  semantics: a receive is enabled when the buffer is non-empty or the
  channel is closed, a receive on a closed empty channel yields `ok = false`.
  The `ctx.Done()` branch never fires because every command runs with
  `context.Background()`.
* Whole runs (`migrateRunV1`, `deleteRun`, `copyRun`) are modelled as the
  sequential execution in which workers drain the task queue and the router
  drains every emitted outcome; `succLines`/`failLines` are the lines the
  router writes to the success/failure files under that complete-drain
  schedule.
-/

namespace MoveObject

/-- One remote MinIO client invocation, as issued by an operation strategy. -/
inductive RemoteCall where
  | getObject (bucket key : String)
  | statObject (bucket key : String)
  | putObject (bucket key : String)
  | copyObject (srcBucket srcKey srcVersion dstBucket dstKey : String)
  | removeObject (bucket key version : String)
deriving DecidableEq

/-- `Put`, `Copy` and `Remove` mutate remote state; `Get` and `Stat` do not. -/
def RemoteCall.isMutating : RemoteCall → Bool
  | .putObject _ _ => true
  | .copyObject _ _ _ _ _ => true
  | .removeObject _ _ _ => true
  | _ => false

/-- A user-visible log message.  `intent a b` is `logMsg(migrateMsg(a, b))`:
the "would move `a` to `b`" intent line. -/
inductive LogMsg where
  | intent (src dst : String)
deriving DecidableEq

/-- Oracle for the remote service: which calls succeed, and what `Stat`
reports.  Arguments follow the bucket/key(/version) order of the calls. -/
structure Remote where
  getOk : String → String → Bool
  statOk : String → String → Bool
  statVersion : String → String → String
  statSize : String → String → Int
  putOk : String → String → Bool
  copyOk : String → String → String → String → String → Bool
  removeOk : String → String → String → Bool

/-- Run configuration: the process-wide globals of the tool.  `patternMatch`
and `convert` are the external key filter and key-rewrite policy (their
sources are outside this repository's pipeline code, so they stay abstract). -/
structure Config where
  dryRun : Bool
  patternMatch : String → Bool
  convert : String → String
  minioBucket : String
  minioSrcBucket : String
  minioDstBucket1 : String
  minioDstBucket2 : String
  minioDstBucket3 : String
  minioDstBucket4 : String

/-- Result of one strategy invocation: the Go `error` return, the remote
calls issued, and the intent log lines printed, in order. -/
structure OpResult where
  err : Option String
  calls : List RemoteCall
  logs : List LogMsg
deriving DecidableEq

/-- `migrateObject`, first revision (`migrate-state.go` lines 168-192):
Get from the source bucket; on Stat failure log the intent and return `nil`
(best-effort success); then the dry-run check; then Put into `minioBucket`. -/
def migrateObjectV1 (cfg : Config) (rem : Remote) (object : String) : OpResult :=
  let getC := RemoteCall.getObject cfg.minioSrcBucket object
  if rem.getOk cfg.minioSrcBucket object then
    let statC := RemoteCall.statObject cfg.minioSrcBucket object
    if rem.statOk cfg.minioSrcBucket object then
      if cfg.dryRun then
        ⟨none, [getC, statC], [LogMsg.intent object (cfg.convert object)]⟩
      else
        let putC := RemoteCall.putObject cfg.minioBucket (cfg.convert object)
        if rem.putOk cfg.minioBucket (cfg.convert object) then
          ⟨none, [getC, statC, putC], []⟩
        else
          ⟨some "PutObject error", [getC, statC, putC], []⟩
    else
      ⟨none, [getC, statC], [LogMsg.intent object (cfg.convert object)]⟩
  else
    ⟨some "GetObject error", [getC], []⟩

/-- Go's `strings.SplitN(s, sep, 2)` on a single-character separator,
working on the character list: `none` when `sep` does not occur, otherwise
the parts before and after its first occurrence. -/
def splitAtFirst (sep : Char) : List Char → Option (List Char × List Char)
  | [] => none
  | c :: rest =>
    if c = sep then some ([], rest)
    else
      match splitAtFirst sep rest with
      | none => none
      | some (a, b) => some (c :: a, b)

/-- `strings.SplitN(s, sep, 2)`: one element when `sep` is absent, two
otherwise. -/
def splitFirst (sep : Char) (s : String) : List String :=
  match splitAtFirst sep s.toList with
  | none => [s]
  | some (a, b) => [a.asString, b.asString]

/-- Decimal value of a digit list (accumulator style, as `strconv.Atoi`). -/
def digitsToInt (cs : List Char) : Int :=
  cs.foldl (fun a c => a * 10 + ((c.toNat : Int) - ('0'.toNat : Int))) 0

/-- `strconv.Atoi`: optional sign followed by at least one digit
(64-bit overflow is not modelled; the prefixes of interest are tiny). -/
def goAtoi (s : String) : Option Int :=
  match s.toList with
  | [] => none
  | '-' :: rest =>
    if rest ≠ [] ∧ rest.all (fun c => c.isDigit) then some (-(digitsToInt rest)) else none
  | '+' :: rest =>
    if rest ≠ [] ∧ rest.all (fun c => c.isDigit) then some (digitsToInt rest) else none
  | cs =>
    if cs.all (fun c => c.isDigit) then some (digitsToInt cs) else none

/-- The bucket-routing if-chain of the second `migrateObject` revision
(`migrate-state.go` lines 398-410): numeric prefix ranges to destination
buckets, `none` for a prefix outside every range. -/
def routeBucket (cfg : Config) (p : Int) : Option String :=
  if p > -1 ∧ p < 250 then some cfg.minioDstBucket1
  else if p > 249 ∧ p < 500 then some cfg.minioDstBucket2
  else if p > 499 ∧ p < 750 then some cfg.minioDstBucket3
  else if p > 749 ∧ p < 1000 then some cfg.minioDstBucket4
  else none

/-- `migrateObject`, second revision (`migrate-state.go` lines 367-418):
key filter inside the strategy; Stat failure logs the intent but returns the
error; after the dry-run check the destination bucket is resolved from the
numeric first path segment via the routing table. -/
def migrateObjectV2 (cfg : Config) (rem : Remote) (object : String) : OpResult :=
  if cfg.patternMatch object then
    let getC := RemoteCall.getObject cfg.minioSrcBucket object
    if rem.getOk cfg.minioSrcBucket object then
      let statC := RemoteCall.statObject cfg.minioSrcBucket object
      if rem.statOk cfg.minioSrcBucket object then
        if cfg.dryRun then
          ⟨none, [getC, statC], [LogMsg.intent object (cfg.convert object)]⟩
        else
          match splitFirst '/' object with
          | [pre, _rest] =>
            (match goAtoi pre with
            | none => ⟨some "Atoi error", [getC, statC], []⟩
            | some p =>
              match routeBucket cfg p with
              | none =>
                ⟨some ("Unable to get prefix for object: " ++ object), [getC, statC], []⟩
              | some bucket =>
                let putC := RemoteCall.putObject bucket (cfg.convert object)
                if rem.putOk bucket (cfg.convert object) then
                  ⟨none, [getC, statC, putC], []⟩
                else
                  ⟨some "PutObject error", [getC, statC, putC], []⟩)
          | _ =>
            ⟨some ("Unable to get prefix for object: " ++ object), [getC, statC], []⟩
      else
        ⟨some "Stat error", [getC, statC], [LogMsg.intent object (cfg.convert object)]⟩
    else
      ⟨some "GetObject error", [getC], []⟩
  else
    ⟨some ("Object doesn't match the expected pattern " ++ object), [], []⟩

/-- `moveObject` (`moveState` file, lines 168-202): dry-run short-circuits
first; otherwise server-side Copy of the given version to the rewritten key,
then Remove of exactly that version from the original key. -/
def moveObject (cfg : Config) (rem : Remote) (object versionID : String) : OpResult :=
  if cfg.dryRun then
    ⟨none, [], [LogMsg.intent object object]⟩
  else
    let copyC := RemoteCall.copyObject cfg.minioBucket object versionID
      cfg.minioBucket (cfg.convert object)
    if rem.copyOk cfg.minioBucket object versionID cfg.minioBucket (cfg.convert object) then
      let removeC := RemoteCall.removeObject cfg.minioBucket object versionID
      if rem.removeOk cfg.minioBucket object versionID then
        ⟨none, [copyC, removeC], []⟩
      else
        ⟨some "RemoveObject error", [copyC, removeC], []⟩
    else
      ⟨some "CopyObject error", [copyC], []⟩

/-- `copyObject` (`copyState` file, lines 142-167): like `moveObject`
without the Remove; the copy source carries no version (Go zero value,
modelled as `""`). -/
def copyObject (cfg : Config) (rem : Remote) (object : String) : OpResult :=
  if cfg.dryRun then
    ⟨none, [], [LogMsg.intent object (cfg.convert object)]⟩
  else
    let copyC := RemoteCall.copyObject cfg.minioBucket object ""
      cfg.minioBucket (cfg.convert object)
    if rem.copyOk cfg.minioBucket object "" cfg.minioBucket (cfg.convert object) then
      ⟨none, [copyC], []⟩
    else
      ⟨some "CopyObject error", [copyC], []⟩

/-- `deleteObject` (`delete-state.go` lines 165-187): Stat resolves the
current version (a failing Stat is an error); the dry-run check follows the
Stat; then Remove of exactly the version Stat reported. -/
def deleteObject (cfg : Config) (rem : Remote) (object : String) : OpResult :=
  let statC := RemoteCall.statObject cfg.minioBucket object
  if rem.statOk cfg.minioBucket object then
    if cfg.dryRun then
      ⟨none, [statC], [LogMsg.intent object object]⟩
    else
      let v := rem.statVersion cfg.minioBucket object
      let removeC := RemoteCall.removeObject cfg.minioBucket object v
      if rem.removeOk cfg.minioBucket object v then
        ⟨none, [statC, removeC], []⟩
      else
        ⟨some "RemoveObject error", [statC, removeC], []⟩
  else
    ⟨some "StatObject error", [statC], []⟩

/-! ## Workers and whole runs -/

/-- Cumulative state of the worker pool: the two atomic counters, the
outcome keys emitted on the success and failure channels (in emission
order), and the remote-call trace. -/
structure WorkerState where
  count : Nat
  failCnt : Nat
  success : List String
  failed : List String
  calls : List RemoteCall
deriving DecidableEq

def initWorker : WorkerState := ⟨0, 0, [], [], []⟩

/-- Failure path of a worker loop body: `incFailCount()` then
`failedCh <- obj`. -/
def recordFailure (st : WorkerState) (obj : String) (cs : List RemoteCall) : WorkerState :=
  ⟨st.count, st.failCnt + 1, st.success, st.failed ++ [obj], st.calls ++ cs⟩

/-- Success path of a worker loop body: `successCh <- obj` then
`incCount()`. -/
def recordSuccess (st : WorkerState) (obj : String) (cs : List RemoteCall) : WorkerState :=
  ⟨st.count + 1, st.failCnt, st.success ++ [obj], st.failed, st.calls ++ cs⟩

/-- Loop body of `migrateState.addWorker`, first revision (lines 85-106):
no key-filter check; the strategy's error return decides the outcome. -/
def migrateWorkerStepV1 (cfg : Config) (rem : Remote) (st : WorkerState)
    (obj : String) : WorkerState :=
  let r := migrateObjectV1 cfg rem obj
  match r.err with
  | some _ => recordFailure st obj r.calls
  | none => recordSuccess st obj r.calls

/-- Loop body of `migrateState.addWorker`, second revision (lines 279-304):
identical to the first; the key filter lives inside `migrateObjectV2`. -/
def migrateWorkerStepV2 (cfg : Config) (rem : Remote) (st : WorkerState)
    (obj : String) : WorkerState :=
  let r := migrateObjectV2 cfg rem obj
  match r.err with
  | some _ => recordFailure st obj r.calls
  | none => recordSuccess st obj r.calls

/-- Loop body of `deleteState.addWorker` (`delete-state.go` lines 69-100):
re-validate the key filter, then run the delete strategy. -/
def deleteWorkerStep (cfg : Config) (rem : Remote) (st : WorkerState)
    (obj : String) : WorkerState :=
  if cfg.patternMatch obj then
    let r := deleteObject cfg rem obj
    match r.err with
    | some _ => recordFailure st obj r.calls
    | none => recordSuccess st obj r.calls
  else
    recordFailure st obj []

/-- Loop body of `copyState.addWorker` (`copyState` file lines 66-96):
re-validate the key filter, then run the copy strategy.  `copyState` has no
success channel: a successful task only increments the processed counter. -/
def copyWorkerStep (cfg : Config) (rem : Remote) (st : WorkerState)
    (obj : String) : WorkerState :=
  if cfg.patternMatch obj then
    let r := copyObject cfg rem obj
    match r.err with
    | some _ => recordFailure st obj r.calls
    | none => ⟨st.count + 1, st.failCnt, st.success, st.failed, st.calls ++ r.calls⟩
  else
    recordFailure st obj []

/-- Loop body of `moveState.addWorker` (`moveState` file lines 70-104):
`result := strings.SplitN(object, ",", 2)` followed unconditionally by
`result[1]` and `result[0]`.  When the task has no comma, `SplitN` returns a
single element and `result[1]` is an out-of-bounds access (a Go panic),
modelled as `none`. -/
def moveWorkerStep (cfg : Config) (rem : Remote) (st : WorkerState)
    (task : String) : Option WorkerState :=
  match splitFirst ',' task with
  | [versionID, obj] =>
    some
      (if cfg.patternMatch obj then
        let r := moveObject cfg rem obj versionID
        match r.err with
        | some _ => recordFailure st obj r.calls
        | none => recordSuccess st obj r.calls
      else
        recordFailure st obj [])
  | _ => none

/-- The scanner loop shared by `migrateAction`, `deleteAction` and the
file-driven `moveAction`: `if skip > 0 { skip--; continue }`, otherwise the
line is enqueued verbatim. -/
def enqueueLines (skip : Int) : List String → List String
  | [] => []
  | o :: rest => if skip > 0 then enqueueLines (skip - 1) rest else o :: enqueueLines skip rest

/-- Observable result of a whole run: final counters, the lines the outcome
router wrote to the success and failure files, and the remote-call trace. -/
structure RunResult where
  count : Nat
  failCnt : Nat
  succLines : List String
  failLines : List String
  calls : List RemoteCall
deriving DecidableEq

/-- A migrate run (first revision): enqueue the input lines past the skip
count, let the workers process every task, and let the router write every
emitted outcome (complete-drain schedule). -/
def migrateRunV1 (cfg : Config) (rem : Remote) (lines : List String) (skip : Int) : RunResult :=
  let w := (enqueueLines skip lines).foldl (migrateWorkerStepV1 cfg rem) initWorker
  ⟨w.count, w.failCnt, w.success, w.failed, w.calls⟩

/-- A delete run, under the same complete-drain schedule. -/
def deleteRun (cfg : Config) (rem : Remote) (lines : List String) (skip : Int) : RunResult :=
  let w := (enqueueLines skip lines).foldl (deleteWorkerStep cfg rem) initWorker
  ⟨w.count, w.failCnt, w.success, w.failed, w.calls⟩

/-- A copy run.  `copyState` maintains no success channel and its router
opens only the failure file, so no success line is ever written. -/
def copyRun (cfg : Config) (rem : Remote) (lines : List String) (skip : Int) : RunResult :=
  let w := (enqueueLines skip lines).foldl (copyWorkerStep cfg rem) initWorker
  ⟨w.count, w.failCnt, w.success, w.failed, w.calls⟩

/-! ## Channels, `finish()`, and the outcome router -/

/-- A Go channel of strings: buffered contents plus the closed flag. -/
structure Chan where
  buf : List String
  closed : Bool
deriving DecidableEq

def Chan.close (c : Chan) : Chan := ⟨c.buf, true⟩

/-- Receive semantics: a buffered value is delivered first even on a closed
channel; a closed empty channel delivers `ok = false` (`none`); an open
empty channel blocks (`none` at the outer level: the branch is disabled). -/
def Chan.recvEvent (c : Chan) : Option (Option String × Chan) :=
  match c.buf with
  | x :: rest => some (some x, ⟨rest, c.closed⟩)
  | [] => if c.closed then some (none, c) else none

/-- The straight-line body of a `finish()` method, as the sequence of its
effects. -/
inductive FinishAction where
  | sleepGrace
  | closeObjectCh
  | waitWorkers
  | closeFailedCh
  | closeSuccessCh
deriving DecidableEq

/-- `migrateState.finish`, first revision (`migrate-state.go` lines
108-116): `close(objectCh); wg.Wait(); close(failedCh)` — and nothing
else: the success channel is not closed. -/
def migrateFinishActionsV1 : List FinishAction :=
  [.closeObjectCh, .waitWorkers, .closeFailedCh]

/-- `migrateState.finish`, second revision (lines 305-315): a 100 ms grace
sleep, then close task queue, wait for workers, close both outcome
channels. -/
def migrateFinishActionsV2 : List FinishAction :=
  [.sleepGrace, .closeObjectCh, .waitWorkers, .closeFailedCh, .closeSuccessCh]

/-- `deleteState.finish` (`delete-state.go` lines 102-112). -/
def deleteFinishActions : List FinishAction :=
  [.sleepGrace, .closeObjectCh, .waitWorkers, .closeFailedCh, .closeSuccessCh]

/-- `moveState.finish` (`moveState` file lines 106-116). -/
def moveFinishActions : List FinishAction :=
  [.sleepGrace, .closeObjectCh, .waitWorkers, .closeFailedCh, .closeSuccessCh]

/-- The three channels of a pipeline state. -/
structure PipeChans where
  objectCh : Chan
  failedCh : Chan
  successCh : Chan
deriving DecidableEq

/-- Effect of `migrateState.finish` (first revision) on the channels: the
task queue and the failure channel are closed, the success channel is left
untouched. -/
def migrateFinishChansV1 (p : PipeChans) : PipeChans :=
  ⟨p.objectCh.close, p.failedCh.close, p.successCh⟩

/-- Effect of the second-revision `finish` (and of the delete/move
variants): all three channels are closed. -/
def migrateFinishChansV2 (p : PipeChans) : PipeChans :=
  ⟨p.objectCh.close, p.failedCh.close, p.successCh.close⟩

/-- State of the outcome-router goroutine: the two outcome channels, the
lines written so far to the failure and success files, and whether the
`return` statement has executed. -/
structure RouterState where
  failedCh : Chan
  successCh : Chan
  failFile : List String
  succFile : List String
  returned : Bool
deriving DecidableEq

/-- One branch choice of the router's `select`. -/
inductive Branch where
  | onFailed
  | onSuccess
deriving DecidableEq

/-- One iteration of the router loop (`migrateState.init` lines 143-165 and
its delete/move twins), taking the chosen `select` branch if it is enabled:
a received key is appended to the corresponding file; `ok = false` (closed,
drained channel) executes `return`.  A disabled branch leaves the state
unchanged (the `select` could not have chosen it). -/
def routerStep (st : RouterState) (b : Branch) : RouterState :=
  if st.returned then st
  else
    match b with
    | .onFailed =>
      match st.failedCh.recvEvent with
      | none => st
      | some (none, c) => ⟨c, st.successCh, st.failFile, st.succFile, true⟩
      | some (some x, c) => ⟨c, st.successCh, st.failFile ++ [x], st.succFile, false⟩
    | .onSuccess =>
      match st.successCh.recvEvent with
      | none => st
      | some (none, c) => ⟨st.failedCh, c, st.failFile, st.succFile, true⟩
      | some (some x, c) => ⟨st.failedCh, c, st.failFile, st.succFile ++ [x], false⟩

/-- The router run under an explicit schedule of branch choices. -/
def routerRun (sched : List Branch) (st : RouterState) : RouterState :=
  sched.foldl routerStep st

/-! ## Concrete fixtures for witnesses and counterexamples -/

/-- A live (non-dry-run) configuration with an accept-all filter and a
prefix-adding rewrite policy. -/
def cfgLive : Config :=
  { dryRun := false
    patternMatch := fun _ => true
    convert := fun s => String.append "moved/" s
    minioBucket := "bkt"
    minioSrcBucket := "srcbkt"
    minioDstBucket1 := "bucket1"
    minioDstBucket2 := "bucket2"
    minioDstBucket3 := "bucket3"
    minioDstBucket4 := "bucket4" }

/-- `cfgLive` with the dry-run flag set. -/
def cfgDry : Config := { cfgLive with dryRun := true }

/-- `cfgLive` with a reject-all key filter. -/
def cfgNoMatch : Config := { cfgLive with patternMatch := fun _ => false }

/-- A remote on which every call succeeds. -/
def remAllOk : Remote :=
  { getOk := fun _ _ => true
    statOk := fun _ _ => true
    statVersion := fun _ _ => "v0"
    statSize := fun _ _ => 7
    putOk := fun _ _ => true
    copyOk := fun _ _ _ _ _ => true
    removeOk := fun _ _ _ => true }

/-- `remAllOk` except that every `Stat` fails. -/
def remStatFail : Remote := { remAllOk with statOk := fun _ _ => false }

/-! ## Helper lemmas -/

/-- The scanner loop enqueues exactly the input lines past the skip count
(a non-positive skip enqueues everything: `Int.toNat` clamps at `0`). -/
theorem enqueueLines_eq_drop (lines : List String) :
    ∀ skip : Int, enqueueLines skip lines = lines.drop skip.toNat := by
  induction lines with
  | nil => intro skip; simp [enqueueLines]
  | cons o rest ih =>
    intro skip
    by_cases h : skip > 0
    · have h1 : skip.toNat = (skip - 1).toNat + 1 := by omega
      simp only [enqueueLines, if_pos h, ih (skip - 1), h1, List.drop_succ_cons]
    · have h0 : skip.toNat = 0 := by omega
      simp [enqueueLines, if_neg h, ih skip, h0]

/-- `splitAtFirst` finds nothing exactly when the separator is absent. -/
theorem splitAtFirst_none_iff (sep : Char) :
    ∀ cs : List Char, splitAtFirst sep cs = none ↔ ∀ c ∈ cs, ¬ c = sep := by
  intro cs
  induction cs with
  | nil => simp [splitAtFirst]
  | cons c rest ih =>
    by_cases hc : c = sep
    · subst hc
      simp [splitAtFirst]
    · simp only [splitAtFirst, if_neg hc, List.mem_cons]
      cases hrec : splitAtFirst sep rest with
      | none =>
        constructor
        · intro _ c' hc'
          rcases hc' with h | h
          · rw [h]; exact hc
          · exact (ih.mp hrec) c' h
        · intro _; rfl
      | some p =>
        obtain ⟨a, b⟩ := p
        constructor
        · intro h
          exact absurd h (by simp)
        · intro h
          have hnone : splitAtFirst sep rest = none :=
            ih.mpr (fun c' hc' => h c' (Or.inr hc'))
          rw [hnone] at hrec
          exact Option.noConfusion hrec

/-- Keys on the success channel after a migrate-V1 worker fold either were
already there or are tasks from the fold's input. -/
theorem migrateV1_fold_success_mem (cfg : Config) (rem : Remote) :
    ∀ (tasks : List String) (st : WorkerState) (x : String),
      x ∈ (tasks.foldl (migrateWorkerStepV1 cfg rem) st).success →
      x ∈ st.success ∨ x ∈ tasks := by
  intro tasks
  induction tasks with
  | nil => intro st x hx; exact Or.inl hx
  | cons t rest ih =>
    intro st x hx
    rw [List.foldl_cons] at hx
    rcases ih _ x hx with h | h
    · cases herr : (migrateObjectV1 cfg rem t).err with
      | some e =>
        simp only [migrateWorkerStepV1, herr, recordFailure] at h
        exact Or.inl h
      | none =>
        simp only [migrateWorkerStepV1, herr, recordSuccess, List.mem_append,
          List.mem_singleton] at h
        rcases h with h | h
        · exact Or.inl h
        · exact Or.inr (by simp [h])
    · exact Or.inr (List.mem_cons_of_mem t h)

/-- Same statement for the failure channel. -/
theorem migrateV1_fold_failed_mem (cfg : Config) (rem : Remote) :
    ∀ (tasks : List String) (st : WorkerState) (x : String),
      x ∈ (tasks.foldl (migrateWorkerStepV1 cfg rem) st).failed →
      x ∈ st.failed ∨ x ∈ tasks := by
  intro tasks
  induction tasks with
  | nil => intro st x hx; exact Or.inl hx
  | cons t rest ih =>
    intro st x hx
    rw [List.foldl_cons] at hx
    rcases ih _ x hx with h | h
    · cases herr : (migrateObjectV1 cfg rem t).err with
      | some e =>
        simp only [migrateWorkerStepV1, herr, recordFailure, List.mem_append,
          List.mem_singleton] at h
        rcases h with h | h
        · exact Or.inl h
        · exact Or.inr (by simp [h])
      | none =>
        simp only [migrateWorkerStepV1, herr, recordSuccess] at h
        exact Or.inl h
    · exact Or.inr (List.mem_cons_of_mem t h)

/-- A present separator is found: `splitAtFirst` is `some` exactly when the
separator occurs. -/
theorem splitAtFirst_isSome_iff (sep : Char) (cs : List Char) :
    (splitAtFirst sep cs).isSome = true ↔ ∃ c ∈ cs, c = sep := by
  rw [Option.isSome_iff_ne_none, Ne, splitAtFirst_none_iff]
  push_neg
  simp

/-- Routing lemma: prefixes 0-249 go to the first destination bucket. -/
theorem routeBucket_one (cfg : Config) {p : Int} (h1 : 0 ≤ p) (h2 : p ≤ 249) :
    routeBucket cfg p = some cfg.minioDstBucket1 := by
  unfold routeBucket
  rw [if_pos ⟨by omega, by omega⟩]

/-- Routing lemma: prefixes 250-499 go to the second destination bucket. -/
theorem routeBucket_two (cfg : Config) {p : Int} (h1 : 250 ≤ p) (h2 : p ≤ 499) :
    routeBucket cfg p = some cfg.minioDstBucket2 := by
  unfold routeBucket
  rw [if_neg (by omega), if_pos ⟨by omega, by omega⟩]

/-- Routing lemma: prefixes 500-749 go to the third destination bucket. -/
theorem routeBucket_three (cfg : Config) {p : Int} (h1 : 500 ≤ p) (h2 : p ≤ 749) :
    routeBucket cfg p = some cfg.minioDstBucket3 := by
  unfold routeBucket
  rw [if_neg (by omega), if_neg (by omega), if_pos ⟨by omega, by omega⟩]

/-- Routing lemma: prefixes 750-999 go to the fourth destination bucket. -/
theorem routeBucket_four (cfg : Config) {p : Int} (h1 : 750 ≤ p) (h2 : p ≤ 999) :
    routeBucket cfg p = some cfg.minioDstBucket4 := by
  unfold routeBucket
  rw [if_neg (by omega), if_neg (by omega), if_neg (by omega), if_pos ⟨by omega, by omega⟩]

/-- Routing lemma: a prefix outside every range resolves to no bucket. -/
theorem routeBucket_none (cfg : Config) {p : Int} (h : p < 0 ∨ 1000 ≤ p) :
    routeBucket cfg p = none := by
  unfold routeBucket
  rw [if_neg (by omega), if_neg (by omega), if_neg (by omega), if_neg (by omega)]

/-! ## The claims -/

/-- C4: for every delete task the strategy first Stats the object and then
Removes exactly the version Stat resolved; when Stat fails the task is a
failure, not a no-op success: one failure-log line for the key, the failed
counter is 1 and the processed counter stays 0. -/
theorem c4_delete_stat_then_remove (cfg : Config) (rem : Remote) (key : String)
    (hdry : cfg.dryRun = false) (hpat : cfg.patternMatch key = true) :
    (rem.statOk cfg.minioBucket key = true →
      (deleteObject cfg rem key).calls =
        [RemoteCall.statObject cfg.minioBucket key,
         RemoteCall.removeObject cfg.minioBucket key (rem.statVersion cfg.minioBucket key)])
    ∧ (rem.statOk cfg.minioBucket key = false →
      deleteRun cfg rem [key] 0 =
        ⟨0, 1, [], [key], [RemoteCall.statObject cfg.minioBucket key]⟩) := by
  constructor
  · intro hstat
    cases hrm : rem.removeOk cfg.minioBucket key (rem.statVersion cfg.minioBucket key) <;>
      simp [deleteObject, hstat, hdry, hrm]
  · intro hstat
    simp [deleteRun, enqueueLines, deleteWorkerStep, deleteObject, hstat, hpat,
      recordFailure, initWorker]

/-- C4 witness: the scenario of the spec, key `gone.txt` with a failing
`Stat` on an otherwise healthy remote. -/
theorem c4_witness :
    (cfgLive.dryRun = false ∧ cfgLive.patternMatch "gone.txt" = true)
    ∧ ((remStatFail.statOk cfgLive.minioBucket "gone.txt" = true →
        (deleteObject cfgLive remStatFail "gone.txt").calls =
          [RemoteCall.statObject cfgLive.minioBucket "gone.txt",
           RemoteCall.removeObject cfgLive.minioBucket "gone.txt"
             (remStatFail.statVersion cfgLive.minioBucket "gone.txt")])
      ∧ (remStatFail.statOk cfgLive.minioBucket "gone.txt" = false →
        deleteRun cfgLive remStatFail ["gone.txt"] 0 =
          ⟨0, 1, [], ["gone.txt"], [RemoteCall.statObject cfgLive.minioBucket "gone.txt"]⟩)) :=
  ⟨⟨by decide, by decide⟩,
   c4_delete_stat_then_remove cfgLive remStatFail "gone.txt" (by decide) (by decide)⟩

/-- C5: with skip `S` on an input of `K` lines (`S ≤ K`), exactly the last
`K − S` lines are enqueued, and (for distinct keys) none of the first `S`
keys appears in either output log of the migrate run. -/
theorem c5_skip_invariant (cfg : Config) (rem : Remote) (lines : List String) (S : Nat)
    (_hS : S ≤ lines.length) (hnd : lines.Nodup) :
    enqueueLines (S : Int) lines = lines.drop S
    ∧ ∀ k ∈ lines.take S,
        k ∉ (migrateRunV1 cfg rem lines (S : Int)).succLines
        ∧ k ∉ (migrateRunV1 cfg rem lines (S : Int)).failLines := by
  have henq : enqueueLines (S : Int) lines = lines.drop S := by
    rw [enqueueLines_eq_drop]
    simp
  refine ⟨henq, ?_⟩
  have h2 : (lines.take S ++ lines.drop S).Nodup := by
    rw [List.take_append_drop]
    exact hnd
  have hdisj : lines.take S |>.Disjoint (lines.drop S) := (List.nodup_append.mp h2).2.2
  intro k hk
  constructor
  · intro hmem
    simp only [migrateRunV1] at hmem
    rcases migrateV1_fold_success_mem cfg rem (enqueueLines (S : Int) lines) initWorker k hmem
      with h | h
    · simp [initWorker] at h
    · exact hdisj hk (henq ▸ h)
  · intro hmem
    simp only [migrateRunV1] at hmem
    rcases migrateV1_fold_failed_mem cfg rem (enqueueLines (S : Int) lines) initWorker k hmem
      with h | h
    · simp [initWorker] at h
    · exact hdisj hk (henq ▸ h)

/-- C5 witness: skip 1 on a three-line distinct input. -/
theorem c5_witness :
    (1 ≤ (["a", "b", "c"] : List String).length ∧ (["a", "b", "c"] : List String).Nodup)
    ∧ (enqueueLines ((1 : Nat) : Int) ["a", "b", "c"] = (["a", "b", "c"] : List String).drop 1
      ∧ ∀ k ∈ (["a", "b", "c"] : List String).take 1,
          k ∉ (migrateRunV1 cfgLive remAllOk ["a", "b", "c"] ((1 : Nat) : Int)).succLines
          ∧ k ∉ (migrateRunV1 cfgLive remAllOk ["a", "b", "c"] ((1 : Nat) : Int)).failLines) :=
  ⟨⟨by decide, by decide⟩,
   c5_skip_invariant cfgLive remAllOk ["a", "b", "c"] 1 (by decide) (by decide)⟩

/-- C6: the bucket-routing table of the second migrate revision maps
numeric prefixes 0-249 to bucket1, 250-499 to bucket2, 500-749 to bucket3
and 750-999 to bucket4 (the Put targets exactly that bucket), and a prefix
outside all ranges is returned as an error — the worker records a failure,
nothing is dropped silently. -/
theorem c6_bucket_routing (cfg : Config) (rem : Remote) (object pre rest : String) (p : Int)
    (hpat : cfg.patternMatch object = true)
    (hget : rem.getOk cfg.minioSrcBucket object = true)
    (hstat : rem.statOk cfg.minioSrcBucket object = true)
    (hdry : cfg.dryRun = false)
    (hsplit : splitFirst '/' object = [pre, rest])
    (hatoi : goAtoi pre = some p) :
    ((0 ≤ p ∧ p ≤ 249) → (migrateObjectV2 cfg rem object).calls =
      [RemoteCall.getObject cfg.minioSrcBucket object,
       RemoteCall.statObject cfg.minioSrcBucket object,
       RemoteCall.putObject cfg.minioDstBucket1 (cfg.convert object)])
    ∧ ((250 ≤ p ∧ p ≤ 499) → (migrateObjectV2 cfg rem object).calls =
      [RemoteCall.getObject cfg.minioSrcBucket object,
       RemoteCall.statObject cfg.minioSrcBucket object,
       RemoteCall.putObject cfg.minioDstBucket2 (cfg.convert object)])
    ∧ ((500 ≤ p ∧ p ≤ 749) → (migrateObjectV2 cfg rem object).calls =
      [RemoteCall.getObject cfg.minioSrcBucket object,
       RemoteCall.statObject cfg.minioSrcBucket object,
       RemoteCall.putObject cfg.minioDstBucket3 (cfg.convert object)])
    ∧ ((750 ≤ p ∧ p ≤ 999) → (migrateObjectV2 cfg rem object).calls =
      [RemoteCall.getObject cfg.minioSrcBucket object,
       RemoteCall.statObject cfg.minioSrcBucket object,
       RemoteCall.putObject cfg.minioDstBucket4 (cfg.convert object)])
    ∧ ((p < 0 ∨ 1000 ≤ p) →
      (migrateObjectV2 cfg rem object).err =
        some ("Unable to get prefix for object: " ++ object)
      ∧ (migrateWorkerStepV2 cfg rem initWorker object).failCnt = 1
      ∧ (migrateWorkerStepV2 cfg rem initWorker object).failed = [object]) := by
  refine ⟨?_, ?_, ?_, ?_, ?_⟩
  · rintro ⟨h1, h2⟩
    cases hput : rem.putOk cfg.minioDstBucket1 (cfg.convert object) <;>
      simp [migrateObjectV2, hpat, hget, hstat, hdry, hsplit, hatoi,
        routeBucket_one cfg h1 h2, hput]
  · rintro ⟨h1, h2⟩
    cases hput : rem.putOk cfg.minioDstBucket2 (cfg.convert object) <;>
      simp [migrateObjectV2, hpat, hget, hstat, hdry, hsplit, hatoi,
        routeBucket_two cfg h1 h2, hput]
  · rintro ⟨h1, h2⟩
    cases hput : rem.putOk cfg.minioDstBucket3 (cfg.convert object) <;>
      simp [migrateObjectV2, hpat, hget, hstat, hdry, hsplit, hatoi,
        routeBucket_three cfg h1 h2, hput]
  · rintro ⟨h1, h2⟩
    cases hput : rem.putOk cfg.minioDstBucket4 (cfg.convert object) <;>
      simp [migrateObjectV2, hpat, hget, hstat, hdry, hsplit, hatoi,
        routeBucket_four cfg h1 h2, hput]
  · intro h
    refine ⟨?_, ?_, ?_⟩ <;>
      simp [migrateWorkerStepV2, migrateObjectV2, hpat, hget, hstat, hdry, hsplit, hatoi,
        routeBucket_none cfg h, recordFailure, initWorker]

/-- C6 witness: key `260/a.txt`, whose numeric prefix 260 routes to
bucket2. -/
theorem c6_witness :
    (cfgLive.patternMatch "260/a.txt" = true
      ∧ remAllOk.getOk cfgLive.minioSrcBucket "260/a.txt" = true
      ∧ remAllOk.statOk cfgLive.minioSrcBucket "260/a.txt" = true
      ∧ cfgLive.dryRun = false
      ∧ splitFirst '/' "260/a.txt" = ["260", "a.txt"]
      ∧ goAtoi "260" = some 260)
    ∧ (((250 : Int) ≤ 260 ∧ (260 : Int) ≤ 499) →
      (migrateObjectV2 cfgLive remAllOk "260/a.txt").calls =
        [RemoteCall.getObject cfgLive.minioSrcBucket "260/a.txt",
         RemoteCall.statObject cfgLive.minioSrcBucket "260/a.txt",
         RemoteCall.putObject cfgLive.minioDstBucket2 (cfgLive.convert "260/a.txt")]) :=
  ⟨⟨by decide, by decide, by decide, by decide, by decide, by decide⟩,
   (c6_bucket_routing cfgLive remAllOk "260/a.txt" "260" "a.txt" 260
     (by decide) (by decide) (by decide) (by decide) (by decide) (by decide)).2.1⟩

/-- C10: the move worker splits each task at the first comma and
unconditionally indexes the second component; the index is in bounds
exactly when the task contains a comma, and the file-driven move intake
passes input lines through verbatim (it enqueues exactly the lines after
the skip count, unmodified), so a comma-free line makes the worker's access
out of bounds (modelled as `none`, the Go panic). -/
theorem c10_move_comma_split (task : String) (cfg : Config) (rem : Remote) (st : WorkerState)
    (hnc : ∀ c ∈ task.toList, ¬ c = ',') :
    (splitFirst ',' task = [task]
      ∧ (splitFirst ',' task)[1]? = none
      ∧ moveWorkerStep cfg rem st task = none)
    ∧ (∀ s : String, ((splitFirst ',' s)[1]?).isSome = true ↔ ∃ c ∈ s.toList, c = ',')
    ∧ (∀ (skip : Int) (lines : List String),
        enqueueLines skip lines = lines.drop skip.toNat) := by
  have hnone : splitAtFirst ',' task.data = none :=
    (splitAtFirst_none_iff ',' task.toList).mpr hnc
  refine ⟨⟨?_, ?_, ?_⟩, ?_, ?_⟩
  · simp [splitFirst, hnone]
  · simp [splitFirst, hnone]
  · simp [moveWorkerStep, splitFirst, hnone]
  · intro s
    cases h : splitAtFirst ',' s.toList with
    | none =>
      have := (splitAtFirst_isSome_iff ',' s.toList)
      rw [h] at this
      simp only [splitFirst, h]
      simpa using this
    | some q =>
      obtain ⟨a, b⟩ := q
      have := (splitAtFirst_isSome_iff ',' s.toList)
      rw [h] at this
      simp only [splitFirst, h]
      simpa using this
  · intro skip lines
    exact enqueueLines_eq_drop lines skip

/-- C10 witness: the comma-free line `plain.txt`. -/
theorem c10_witness :
    (∀ c ∈ "plain.txt".toList, ¬ c = ',')
    ∧ (splitFirst ',' "plain.txt" = ["plain.txt"]
      ∧ (splitFirst ',' "plain.txt")[1]? = none
      ∧ moveWorkerStep cfgLive remAllOk initWorker "plain.txt" = none) :=
  ⟨by decide,
   (c10_move_comma_split "plain.txt" cfgLive remAllOk initWorker (by decide)).1⟩

/-- C1 counterexample: the first-revision `finish` never closes the success
channel (the claim says both outcome queues are closed), and from the
reachable post-`finish` state "failure channel closed and drained, success
channel open with the emitted outcome `a.txt` still buffered" one legal
`select` firing makes the router return with the success file empty — the
outcome is lost. -/
theorem c1_counterexample :
    FinishAction.closeSuccessCh ∉ migrateFinishActionsV1
    ∧ (migrateFinishChansV1
        ⟨⟨[], false⟩, ⟨[], false⟩, ⟨["a.txt"], false⟩⟩).successCh.closed = false
    ∧ routerRun [Branch.onFailed] ⟨⟨[], true⟩, ⟨["a.txt"], false⟩, [], [], false⟩ =
        ⟨⟨[], true⟩, ⟨["a.txt"], false⟩, [], [], true⟩ := by decide

/-- C1 (amended): the first-revision `finish()` closes the task queue, then
waits on the workers, then closes only the failure channel — the success
channel is never closed — and the router executes `return` upon its first
receive from a closed drained channel, so outcomes still buffered on the
other channel at that point are never written. -/
theorem c1_shutdown_order (p : PipeChans) :
    migrateFinishActionsV1 =
      [FinishAction.closeObjectCh, FinishAction.waitWorkers, FinishAction.closeFailedCh]
    ∧ (migrateFinishChansV1 p).objectCh.closed = true
    ∧ (migrateFinishChansV1 p).failedCh.closed = true
    ∧ (migrateFinishChansV1 p).successCh = p.successCh
    ∧ (∀ st : RouterState, st.returned = false → st.failedCh = ⟨[], true⟩ →
        routerRun [Branch.onFailed] st =
          ⟨st.failedCh, st.successCh, st.failFile, st.succFile, true⟩) := by
  refine ⟨rfl, rfl, rfl, rfl, ?_⟩
  intro st h1 h2
  simp [routerRun, routerStep, h1, h2, Chan.recvEvent]

/-- C1 witness: the amended shutdown behaviour at a concrete channel
state. -/
theorem c1_shutdown_order_witness :
    (migrateFinishChansV1 ⟨⟨[], false⟩, ⟨[], false⟩, ⟨["x"], false⟩⟩).successCh =
      (PipeChans.mk ⟨[], false⟩ ⟨[], false⟩ ⟨["x"], false⟩).successCh :=
  (c1_shutdown_order ⟨⟨[], false⟩, ⟨[], false⟩, ⟨["x"], false⟩⟩).2.2.2.1

/-- C2 counterexample: a dry-run migrate run on one task still writes the
key to the success log — the router does not suppress writes under
dry-run, so the output files do not remain empty. -/
theorem c2_counterexample :
    (migrateRunV1 cfgDry remAllOk ["a.txt"] 0).succLines = ["a.txt"]
    ∧ (migrateRunV1 cfgDry remAllOk ["a.txt"] 0).succLines ≠ [] := by decide

/-- C2 (amended): with dry-run set no operation strategy ever issues a
mutating remote call (`Put`, `Copy`, `Remove`); however the migrate outcome
router does not suppress log writes: a dry-run migrate run still writes
each successfully processed key to the success log. -/
theorem c2_dryrun_no_mutation (cfg : Config) (rem : Remote) (obj versionID : String)
    (hdry : cfg.dryRun = true) :
    (∀ c ∈ (migrateObjectV1 cfg rem obj).calls, c.isMutating = false)
    ∧ (∀ c ∈ (migrateObjectV2 cfg rem obj).calls, c.isMutating = false)
    ∧ (∀ c ∈ (moveObject cfg rem obj versionID).calls, c.isMutating = false)
    ∧ (∀ c ∈ (copyObject cfg rem obj).calls, c.isMutating = false)
    ∧ (∀ c ∈ (deleteObject cfg rem obj).calls, c.isMutating = false)
    ∧ (migrateRunV1 cfgDry remAllOk ["a.txt"] 0).succLines = ["a.txt"] := by
  refine ⟨?_, ?_, ?_, ?_, ?_, by decide⟩
  · by_cases hg : rem.getOk cfg.minioSrcBucket obj <;>
      by_cases hs : rem.statOk cfg.minioSrcBucket obj <;>
      simp [migrateObjectV1, hg, hs, hdry, RemoteCall.isMutating]
  · by_cases hp : cfg.patternMatch obj <;>
      by_cases hg : rem.getOk cfg.minioSrcBucket obj <;>
      by_cases hs : rem.statOk cfg.minioSrcBucket obj <;>
      simp [migrateObjectV2, hp, hg, hs, hdry, RemoteCall.isMutating]
  · simp [moveObject, hdry]
  · simp [copyObject, hdry]
  · by_cases hs : rem.statOk cfg.minioBucket obj <;>
      simp [deleteObject, hs, hdry, RemoteCall.isMutating]

/-- C2 witness: the dry-run configuration satisfies the amended claim. -/
theorem c2_witness :
    cfgDry.dryRun = true
    ∧ (∀ c ∈ (migrateObjectV1 cfgDry remAllOk "x").calls, c.isMutating = false) :=
  ⟨by decide, (c2_dryrun_no_mutation cfgDry remAllOk "x" "v1" (by decide)).1⟩

/-- C3 counterexample: in the second migrate revision a successful Get
followed by a failing Stat logs the intended destination but returns the
error, so the worker records the task as a failure — refuting "returns
success (no error) ... counted and recorded as a success" for that
revision. -/
theorem c3_counterexample :
    (migrateObjectV2 cfgLive remStatFail "0/a.txt").err = some "Stat error"
    ∧ (migrateObjectV2 cfgLive remStatFail "0/a.txt").logs =
        [LogMsg.intent "0/a.txt" (cfgLive.convert "0/a.txt")]
    ∧ (migrateWorkerStepV2 cfgLive remStatFail initWorker "0/a.txt").failCnt = 1
    ∧ (migrateWorkerStepV2 cfgLive remStatFail initWorker "0/a.txt").count = 0 := by decide

/-- C3 (amended): on Get success and Stat failure the first migrate
revision logs the intended destination and returns success — the worker
counts and records the task as a success; the second revision logs the
same intent but returns the error, so there the worker records a
failure. -/
theorem c3_stat_failure_policy (cfg : Config) (rem : Remote) (obj : String)
    (hget : rem.getOk cfg.minioSrcBucket obj = true)
    (hstat : rem.statOk cfg.minioSrcBucket obj = false) :
    migrateObjectV1 cfg rem obj =
      ⟨none, [RemoteCall.getObject cfg.minioSrcBucket obj,
              RemoteCall.statObject cfg.minioSrcBucket obj],
       [LogMsg.intent obj (cfg.convert obj)]⟩
    ∧ (migrateWorkerStepV1 cfg rem initWorker obj).count = 1
    ∧ (migrateWorkerStepV1 cfg rem initWorker obj).success = [obj]
    ∧ (cfg.patternMatch obj = true →
        (migrateObjectV2 cfg rem obj).err = some "Stat error"
        ∧ (migrateObjectV2 cfg rem obj).logs = [LogMsg.intent obj (cfg.convert obj)]
        ∧ (migrateWorkerStepV2 cfg rem initWorker obj).failCnt = 1
        ∧ (migrateWorkerStepV2 cfg rem initWorker obj).count = 0) := by
  have h1 : migrateObjectV1 cfg rem obj =
      ⟨none, [RemoteCall.getObject cfg.minioSrcBucket obj,
              RemoteCall.statObject cfg.minioSrcBucket obj],
       [LogMsg.intent obj (cfg.convert obj)]⟩ := by
    simp [migrateObjectV1, hget, hstat]
  refine ⟨h1, ?_, ?_, ?_⟩
  · simp [migrateWorkerStepV1, h1, recordSuccess, initWorker]
  · simp [migrateWorkerStepV1, h1, recordSuccess, initWorker]
  · intro hpat
    have h2 : migrateObjectV2 cfg rem obj =
        ⟨some "Stat error", [RemoteCall.getObject cfg.minioSrcBucket obj,
                RemoteCall.statObject cfg.minioSrcBucket obj],
         [LogMsg.intent obj (cfg.convert obj)]⟩ := by
      simp [migrateObjectV2, hpat, hget, hstat]
    refine ⟨by simp [h2], by simp [h2], ?_, ?_⟩
    · simp [migrateWorkerStepV2, h2, recordFailure, initWorker]
    · simp [migrateWorkerStepV2, h2, recordFailure, initWorker]

/-- C3 witness: key `0/a.txt` on a remote whose Stat always fails. -/
theorem c3_witness :
    (remStatFail.getOk cfgLive.minioSrcBucket "0/a.txt" = true
      ∧ remStatFail.statOk cfgLive.minioSrcBucket "0/a.txt" = false)
    ∧ ((migrateWorkerStepV1 cfgLive remStatFail initWorker "0/a.txt").count = 1
      ∧ (migrateWorkerStepV1 cfgLive remStatFail initWorker "0/a.txt").success = ["0/a.txt"]) :=
  ⟨⟨by decide, by decide⟩,
   ⟨(c3_stat_failure_policy cfgLive remStatFail "0/a.txt" (by decide) (by decide)).2.1,
    (c3_stat_failure_policy cfgLive remStatFail "0/a.txt" (by decide) (by decide)).2.2.1⟩⟩

/-- C7 counterexample: the copy variant has no success channel and its
router opens only the failure file, so the scenario run writes zero
success-log lines (not two), even though both tasks succeed and the
processed counter reaches 2. -/
theorem c7_counterexample :
    (copyRun cfgLive remAllOk ["v1,0/a.txt", "0/b.txt"] 0).count = 2
    ∧ (copyRun cfgLive remAllOk ["v1,0/a.txt", "0/b.txt"] 0).failLines = []
    ∧ (copyRun cfgLive remAllOk ["v1,0/a.txt", "0/b.txt"] 0).succLines = []
    ∧ (copyRun cfgLive remAllOk ["v1,0/a.txt", "0/b.txt"] 0).succLines.length ≠ 2 := by decide

/-- C7 (amended): the scenario run issues one Copy per raw input line (the
`v1,` prefix is not parsed off by the copy variant), increments the
processed counter to 2, writes zero failure-log lines — and writes no
success-log lines at all, because the copy variant maintains no success
channel and no success log. -/
theorem c7_copy_scenario (cfg : Config) (rem : Remote)
    (hdry : cfg.dryRun = false)
    (hp1 : cfg.patternMatch "v1,0/a.txt" = true)
    (hp2 : cfg.patternMatch "0/b.txt" = true)
    (hc1 : rem.copyOk cfg.minioBucket "v1,0/a.txt" "" cfg.minioBucket
      (cfg.convert "v1,0/a.txt") = true)
    (hc2 : rem.copyOk cfg.minioBucket "0/b.txt" "" cfg.minioBucket
      (cfg.convert "0/b.txt") = true) :
    copyRun cfg rem ["v1,0/a.txt", "0/b.txt"] 0 =
      ⟨2, 0, [], [],
       [RemoteCall.copyObject cfg.minioBucket "v1,0/a.txt" "" cfg.minioBucket
          (cfg.convert "v1,0/a.txt"),
        RemoteCall.copyObject cfg.minioBucket "0/b.txt" "" cfg.minioBucket
          (cfg.convert "0/b.txt")]⟩ := by
  simp [copyRun, enqueueLines, copyWorkerStep, copyObject, hdry, hp1, hp2, hc1, hc2,
    initWorker]

/-- C7 witness: the scenario on the all-accepting live configuration. -/
theorem c7_witness :
    (cfgLive.dryRun = false ∧ cfgLive.patternMatch "v1,0/a.txt" = true)
    ∧ copyRun cfgLive remAllOk ["v1,0/a.txt", "0/b.txt"] 0 =
      ⟨2, 0, [], [],
       [RemoteCall.copyObject cfgLive.minioBucket "v1,0/a.txt" "" cfgLive.minioBucket
          (cfgLive.convert "v1,0/a.txt"),
        RemoteCall.copyObject cfgLive.minioBucket "0/b.txt" "" cfgLive.minioBucket
          (cfgLive.convert "0/b.txt")]⟩ :=
  ⟨⟨by decide, by decide⟩,
   c7_copy_scenario cfgLive remAllOk (by decide) (by decide) (by decide)
     (by decide) (by decide)⟩

/-- C8 counterexample: with dry-run set, the migrate strategy still issues
the remote Get (and Stat) — the dry-run check does not short-circuit before
the Get — and the delete strategy still issues the Stat. -/
theorem c8_counterexample :
    RemoteCall.getObject "srcbkt" "x" ∈ (migrateObjectV1 cfgDry remAllOk "x").calls
    ∧ (migrateObjectV1 cfgDry remAllOk "x").calls ≠ []
    ∧ RemoteCall.statObject "bkt" "x" ∈ (deleteObject cfgDry remAllOk "x").calls := by decide

/-- C8 (amended): with dry-run set, move and copy log the intent and return
success without any remote call; migrate and delete also log the intent and
return success, but only after issuing their read-only Get/Stat (migrate)
or Stat (delete) calls — the dry-run check sits after those calls, not
before the Get. -/
theorem c8_dryrun_behaviour (cfg : Config) (rem : Remote) (obj versionID : String)
    (hdry : cfg.dryRun = true) :
    moveObject cfg rem obj versionID = ⟨none, [], [LogMsg.intent obj obj]⟩
    ∧ copyObject cfg rem obj = ⟨none, [], [LogMsg.intent obj (cfg.convert obj)]⟩
    ∧ (rem.getOk cfg.minioSrcBucket obj = true → rem.statOk cfg.minioSrcBucket obj = true →
        migrateObjectV1 cfg rem obj =
          ⟨none, [RemoteCall.getObject cfg.minioSrcBucket obj,
                  RemoteCall.statObject cfg.minioSrcBucket obj],
           [LogMsg.intent obj (cfg.convert obj)]⟩)
    ∧ (rem.statOk cfg.minioBucket obj = true →
        deleteObject cfg rem obj =
          ⟨none, [RemoteCall.statObject cfg.minioBucket obj], [LogMsg.intent obj obj]⟩) := by
  refine ⟨by simp [moveObject, hdry], by simp [copyObject, hdry], ?_, ?_⟩
  · intro hg hs
    simp [migrateObjectV1, hg, hs, hdry]
  · intro hs
    simp [deleteObject, hs, hdry]

/-- C8 witness: dry-run behaviour at a concrete key on a healthy remote. -/
theorem c8_witness :
    cfgDry.dryRun = true
    ∧ moveObject cfgDry remAllOk "x" "v1" = ⟨none, [], [LogMsg.intent "x" "x"]⟩ :=
  ⟨by decide, (c8_dryrun_behaviour cfgDry remAllOk "x" "v1" (by decide)).1⟩

/-- C9 counterexample: the first-revision migrate worker never consults the
key filter: with a reject-all filter it still contacts the remote and
emits a Success outcome, refuting "each worker re-validates the key filter
... on mismatch emits Failure without any remote call" for the migrate
variant. -/
theorem c9_counterexample :
    cfgNoMatch.patternMatch "x" = false
    ∧ (migrateWorkerStepV1 cfgNoMatch remAllOk initWorker "x").count = 1
    ∧ (migrateWorkerStepV1 cfgNoMatch remAllOk initWorker "x").failCnt = 0
    ∧ (migrateWorkerStepV1 cfgNoMatch remAllOk initWorker "x").success = ["x"]
    ∧ (migrateWorkerStepV1 cfgNoMatch remAllOk initWorker "x").calls ≠ [] := by decide

/-- C9 (amended): the move, copy and delete workers re-validate the key
filter on each dequeued task and on mismatch take the failure path —
failure counter incremented, the key emitted on the failure channel, no
remote call; the migrate workers do not re-validate: the first revision
applies no filter anywhere, and the second checks the filter inside the
strategy, which on mismatch returns an error (so the worker emits Failure)
without a remote call. -/
theorem c9_filter_revalidation (cfg : Config) (rem : Remote) (st : WorkerState)
    (obj task versionID : String)
    (hpat : cfg.patternMatch obj = false) :
    deleteWorkerStep cfg rem st obj = recordFailure st obj []
    ∧ copyWorkerStep cfg rem st obj = recordFailure st obj []
    ∧ (splitFirst ',' task = [versionID, obj] →
        moveWorkerStep cfg rem st task = some (recordFailure st obj []))
    ∧ (recordFailure st obj []).calls = st.calls
    ∧ (recordFailure st obj []).failCnt = st.failCnt + 1
    ∧ (recordFailure st obj []).failed = st.failed ++ [obj]
    ∧ (migrateObjectV2 cfg rem obj).calls = []
    ∧ (migrateObjectV2 cfg rem obj).err =
        some ("Object doesn't match the expected pattern " ++ obj)
    ∧ migrateWorkerStepV2 cfg rem st obj = recordFailure st obj [] := by
  have h2 : migrateObjectV2 cfg rem obj =
      ⟨some ("Object doesn't match the expected pattern " ++ obj), [], []⟩ := by
    simp [migrateObjectV2, hpat]
  refine ⟨by simp [deleteWorkerStep, hpat], by simp [copyWorkerStep, hpat], ?_,
    by simp [recordFailure], by simp [recordFailure], by simp [recordFailure],
    by simp [h2], by simp [h2], by simp [migrateWorkerStepV2, h2]⟩
  intro hsplit
  simp [moveWorkerStep, hsplit, hpat]

/-- C9 witness: task `v1,x` with a reject-all filter. -/
theorem c9_witness :
    cfgNoMatch.patternMatch "x" = false
    ∧ deleteWorkerStep cfgNoMatch remAllOk initWorker "x" =
        recordFailure initWorker "x" [] :=
  ⟨by decide,
   (c9_filter_revalidation cfgNoMatch remAllOk initWorker "x" "v1,x" "v1" (by decide)).1⟩

end MoveObject
